import Mathlib

/-!
Verification development for the flow-state dialogue orchestration engine.

The definitions below are a shallow embedding of the Python sources
`ai_talker_functions_multi_v3.py`, `chat_interface.py` and `api_multi_v3.py`:
pure string manipulation is translated to Lean functions on `String`,
the conversation loops become fuel-indexed recursive functions over an
explicit transcript, and the two external effects (the language-model
HTTP call and the DynamoDB scan) are parameterized by their observable
outcome so that every control-flow branch of the Python code is kept.
-/

namespace FlowState

/-- One transcript entry: the Python loops append dicts
`{"role": "AI"|"User", "content": ...}` to the `conversation` list. -/
structure Turn where
  role : String
  content : String
deriving DecidableEq, Repr

/-- One model-facing message `{"role": ..., "content": ...}` as sent to the
GPT endpoint by `call_gpt_api`. -/
structure Msg where
  role : String
  content : String
deriving DecidableEq, Repr

/-- `class ConversationStep` of `ai_talker_functions_multi_v3.py`: a step
object holds only the string `function`.  In `available_steps` each catalog
name maps to one object whose `function` equals the name, and sequences are
built from those objects, so Python object identity of steps coincides with
equality of the `function` strings; this embedding therefore compares steps
by that string. -/
structure ConversationStep where
  function : String
deriving DecidableEq, Repr

/-- Python `str.upper()` restricted to ASCII case mapping (the only case the
engine compares are the ASCII tokens STAY and COMPLETE). -/
def pyUpper (s : String) : String := String.mk (s.data.map Char.toUpper)

/-- Python `str.lower()` restricted to ASCII case mapping. -/
def pyLower (s : String) : String := String.mk (s.data.map Char.toLower)

/-- Strip leading and trailing whitespace characters from a character list. -/
def stripChars (l : List Char) : List Char :=
  ((l.dropWhile Char.isWhitespace).reverse.dropWhile Char.isWhitespace).reverse

/-- Python `str.strip()` with no argument: remove leading and trailing
whitespace (ASCII whitespace model). -/
def pyStrip (s : String) : String := String.mk (stripChars s.data)

/-- Python f-string conversion of a possibly missing (`None`) value:
`f"{x}"` renders `None` as the four-character text `None`. -/
def pyStr : Option String → String
  | none => "None"
  | some s => s

/-- The eleven per-step prompt fragments fetched from DynamoDB at module
load of `ai_talker_functions_multi_v3.py` (lines 63-73); each fetch may
yield `None`. -/
structure Prompts where
  greeting : Option String
  needs_assessment : Option String
  info_provision : Option String
  transaction : Option String
  support : Option String
  feedback : Option String
  account_management : Option String
  closing : Option String
  error_handling : Option String
  common_states : Option String
  connections : Option String
deriving DecidableEq, Repr

/-- The `step_prompts` dict of `ai_talker_functions_multi_v3.py` (lines
79-141).  Every entry is an f-string, so a fragment that was fetched as
`None` is interpolated through `pyStr` as the literal text `None`.  The
Python dict raises `KeyError` for a name outside the catalog; the loops
only ever index it with catalog names, and this embedding returns `""` off
that domain. -/
def step_prompts (p : Prompts) (name : String) : String :=
  if name = "GREETING" then
    "You are a friendly AI assistant. Greet the customer warmly and engage in a brief conversation to make them feel welcome. Then, ask the customer for the following details, one by one, in a natural tone: " ++ pyStr p.greeting ++ ". Make sure to wait for the user's response to each question before moving to the next. Do not move to the next step until all of these details are collected. Keep the conversation engaging and friendly throughout."
  else if name = "NEEDS_ASSESSMENT" then
    "You are a helpful AI assistant. Ask the customer about their interests or needs. Try to understand what product or service they might be looking for. Ask the following follow-up questions to gather detailed insights: " ++ pyStr p.needs_assessment ++ ". Make sure to explore preferences, budget, and any specific requirements they might have."
  else if name = "INFO_PROVISION" then
    "You are a knowledgeable AI assistant. Provide detailed information about the product or service the customer is interested in. Pull the required information from the following source: " ++ pyStr p.info_provision ++ ". Ensure the customer understands the key features and benefits, and ask if they have any questions."
  else if name = "TRANSACTION" then
    "You are a helpful AI sales assistant. Guide the customer through the purchase process. Collect necessary details for the transaction, such as quantity, shipping address, and payment method. Confirm each piece of information clearly and make sure the customer understands the process. " ++ pyStr p.transaction
  else if name = "SUPPORT" then
    "You are a patient AI support assistant. Listen to the customer's issue carefully and ask for any necessary details to understand it fully. Offer clear and helpful solutions based on the problem described. Follow up to ensure the solution has resolved their issue. " ++ pyStr p.support
  else if name = "FEEDBACK" then
    "You are a courteous AI assistant. Politely ask the customer for their feedback on the product, service, or their interaction with you. Encourage honest and constructive responses. Use this prompt to guide the conversation: " ++ pyStr p.feedback ++ ". Ask follow-up questions to get more detailed insights."
  else if name = "ACCOUNT_MANAGEMENT" then
    "You are a secure AI account manager. Help the customer with their account-related request. Ensure to maintain privacy and security protocols while assisting. Gather the following account information step by step: " ++ pyStr p.account_management ++ "."
  else if name = "CLOSING" then
    "You are a grateful AI assistant. Thank the customer sincerely for their time and interaction. Summarize the key points of your conversation. " ++ pyStr p.closing ++ " Keep the tone warm and engaging, and make sure everything is handled step by step before closing."
  else if name = "ERROR_HANDLING" then
    "You are an attentive AI troubleshooter. Carefully listen to any issues or errors the customer reports. Ask for clarification if needed and offer step-by-step instructions to resolve the issue. Ensure to confirm whether the problem is fully resolved afterward. Use this for guidance: " ++ pyStr p.error_handling ++ "."
  else if name = "COMMON_STATES" then
    "You are a versatile AI assistant. Handle general customer inquiries or common conversation topics in a helpful and engaging way. Provide information or guidance based on: " ++ pyStr p.common_states ++ ". Always ask follow-up questions to ensure the customer's needs are fully addressed."
  else if name = "Connections" then
    "You are an intelligent assistant managing connections between services, systems, or people. Ask about connection-specific details such as linked accounts, integrations, or contacts. Use this context to assist: " ++ pyStr p.connections ++ "."
  else ""

/-- The ordered key list of the `available_steps` dict
(`ai_talker_functions_multi_v3.py` lines 147-158). -/
def step_names : List String :=
  ["GREETING", "NEEDS_ASSESSMENT", "INFO_PROVISION", "TRANSACTION", "SUPPORT",
   "FEEDBACK", "ACCOUNT_MANAGEMENT", "CLOSING", "ERROR_HANDLING", "COMMON_STATES"]

/-- The `available_steps` dict as a lookup: every catalog name maps to
`ConversationStep(function=name)`, any other name is absent. -/
def available_steps (name : String) : Option ConversationStep :=
  if name ∈ step_names then some ⟨name⟩ else none

/-- Observable outcome of the HTTP POST performed inside `call_gpt_api`
(`ai_talker_functions_multi_v3.py` lines 180-190): a 200 response whose body
carries the completion, a non-200 response with its status and body text, or
a raised exception with its message. -/
inductive GatewayOutcome where
  | success (content : String)
  | httpError (status : Nat) (body : String)
  | exc (msg : String)
deriving DecidableEq, Repr

/-- Whether a gateway outcome is a failure (non-200 response or exception). -/
def gatewayFails : GatewayOutcome → Bool
  | .success _ => false
  | _ => true

/-- `call_gpt_api` (`ai_talker_functions_multi_v3.py` lines 160-190) with the
transport outcome made explicit.  `env_ok` states whether both
`GPT4_ENDPOINT` and `GPT4_API_KEY` are set.  Every branch returns a plain
string: no failure is ever raised to the caller. -/
def call_gpt_api (env_ok : Bool) (outcome : GatewayOutcome) : String :=
  if env_ok = false then
    "AI: Error: GPT4_API_KEY or GPT4_ENDPOINT not found in environment variables."
  else
    match outcome with
    | .success c => c
    | .httpError status body =>
        "AI: I apologize, but I encountered an error. Status code: " ++ toString status ++ ". Error: " ++ body
    | .exc msg => "AI: I apologize, but I encountered an error: " ++ msg

/-- Python `conversation[-5:]`: the at-most-five most recent turns, oldest
first. -/
def last5 (conv : List Turn) : List Turn := conv.drop (conv.length - 5)

/-- The per-turn mapping of the comprehension at
`ai_talker_functions_multi_v3.py` line 239 (identical at
`chat_interface.py` line 44): role `"AI"` becomes the model-facing
`"assistant"`, every other role becomes `"user"`. -/
def toModelMsg (t : Turn) : Msg :=
  ⟨if t.role = "AI" then "assistant" else "user", t.content⟩

/-- The outbound message list built at lines 238-239 of
`ai_talker_functions_multi_v3.py`: the step's rendered template as the
single system message, then one mapped message per turn of
`conversation[-5:]`. -/
def buildMessages (p : Prompts) (cur : ConversationStep) (conv : List Turn) : List Msg :=
  ⟨"system", step_prompts p cur.function⟩ :: (last5 conv).map toModelMsg

/-- JSON escaping of one character as `json.dumps` applies it inside the
role and content fields (ASCII model: the engine's own strings stay
unescaped). -/
def jsonEscapeChar (c : Char) : String :=
  if c = '\\' then "\\\\"
  else if c = '\"' then "\\\""
  else if c = '\n' then "\\n"
  else if c = '\t' then "\\t"
  else if c = '\r' then "\\r"
  else String.mk [c]

/-- JSON escaping of a whole string. -/
def jsonEscape (s : String) : String := String.join (s.data.map jsonEscapeChar)

/-- A JSON string literal. -/
def jsonStr (s : String) : String := "\"" ++ jsonEscape s ++ "\""

/-- One turn dict as `json.dumps(..., indent=2)` prints it inside a list. -/
def dumpsTurn (t : Turn) : String :=
  "  \x7b\n    \"role\": " ++ jsonStr t.role ++ ",\n    \"content\": " ++ jsonStr t.content ++ "\n  \x7d"

/-- `json.dumps(turns, indent=2)` for the list of turn dicts. -/
def dumpsTurns (ts : List Turn) : String :=
  match ts with
  | [] => "[]"
  | _ => "[\n" ++ String.intercalate ",\n" (ts.map dumpsTurn) ++ "\n]"

/-- The supervisor's judgment prompt, the triple-quoted f-string at
`ai_talker_functions_multi_v3.py` lines 197-212: it embeds the current
step's name, the step's template as requirements, and the JSON dump of
`conversation[-5:]`. -/
def supervisorPrompt (p : Prompts) (conv : List Turn) (cur : ConversationStep) : String :=
  "\n    You are a conversation supervisor. Your task is to determine if the current conversation step (" ++ cur.function ++ ") has been completed based on the conversation history.\n    If the step is complete, decide which step to move to next.\n    If the step is not complete, indicate that we should stay on the current step.\n    \n    Current step: " ++ cur.function ++ "\n    Step requirements: " ++ step_prompts p cur.function ++ "\n    \n    Conversation history (last 5 messages):\n    " ++ dumpsTurns (last5 conv) ++ "\n    \n    Please respond with one of the following:\n    1. \"STAY\" if the current step is not complete\n    2. The name of the next step (e.g., \"NEEDS_ASSESSMENT\") if the current step is complete\n    3. \"COMPLETE\" if all steps have been completed\n    "

/-- The single system message submitted by the supervisor (line 214). -/
def supervisorMessages (p : Prompts) (conv : List Turn) (cur : ConversationStep) : List Msg :=
  [⟨"system", supervisorPrompt p conv cur⟩]

/-- The decision tail of `supervisor` (lines 217-228): the reply is stripped
and upper-cased; `STAY` keeps the current step, `COMPLETE` yields `none`
(conversation complete), and anything else advances to the entry after
`conversation_sequence.index(current_step)`, or to `none` when that index
runs past the end.  Python's `list.index` finds the first occurrence and
raises `ValueError` when the element is absent; the loops only ever call
this with `cur` drawn from `seq`, and the theorems below carry that
membership assumption.  `List.indexOf` likewise yields the first index. -/
def superDecide (reply : String) (cur : ConversationStep) (seq : List ConversationStep) :
    Option ConversationStep :=
  let d := pyUpper (pyStrip reply)
  if d = "STAY" then some cur
  else if d = "COMPLETE" then none
  else
    let next := seq.indexOf cur + 1
    seq[next]?

/-- `supervisor` (lines 196-228): build the judgment prompt, submit it
through the gateway `gw`, and map the reply to a decision. -/
def supervisor (p : Prompts) (gw : List Msg → String) (conv : List Turn)
    (cur : ConversationStep) (seq : List ConversationStep) : Option ConversationStep :=
  superDecide (gw (supervisorMessages p conv cur)) cur seq

/-- One iteration of the `run_conversation` while-loop
(`ai_talker_functions_multi_v3.py` lines 234-252): render and submit the
step prompt, append the assistant reply and the user input to the
transcript, then let the supervisor pick the next step.  There is no exit
check in this loop. -/
def runIter (p : Prompts) (gw : List Msg → String) (input : String)
    (seq : List ConversationStep) (conv : List Turn) (cur : ConversationStep) :
    List Turn × Option ConversationStep :=
  let ai := gw (buildMessages p cur conv)
  let conv2 := conv ++ [⟨"AI", ai⟩, ⟨"User", input⟩]
  (conv2, supervisor p gw conv2 cur seq)

/-- The `run_conversation` while-loop, fuel-indexed; `inputs k` is the user
input typed at iteration `k`.  When the current step is `none` the Python
loop has exited and the transcript is returned. -/
def run_loop (p : Prompts) (gw : List Msg → String) (inputs : Nat → String)
    (seq : List ConversationStep) :
    Nat → Nat → List Turn → Option ConversationStep → List Turn × Option ConversationStep
  | 0, _, conv, cur => (conv, cur)
  | _ + 1, _, conv, none => (conv, none)
  | fuel + 1, k, conv, some cur =>
      let st := runIter p gw (inputs k) seq conv cur
      run_loop p gw inputs seq fuel (k + 1) st.1 st.2

/-- One iteration of the `chat_interface` while-loop (`chat_interface.py`
lines 39-60).  It differs from `runIter` in one point: after appending the
user turn, an input whose lower-casing is `exit`, `quit` or `bye` breaks
out of the loop before the supervisor is consulted. -/
def chatIter (p : Prompts) (gw : List Msg → String) (input : String)
    (seq : List ConversationStep) (conv : List Turn) (cur : ConversationStep) :
    List Turn × Option ConversationStep :=
  let ai := gw (buildMessages p cur conv)
  let conv2 := conv ++ [⟨"AI", ai⟩, ⟨"User", input⟩]
  if pyLower input ∈ (["exit", "quit", "bye"] : List String) then (conv2, none)
  else (conv2, supervisor p gw conv2 cur seq)

/-- The `chat_interface` while-loop, fuel-indexed like `run_loop`. -/
def chat_loop (p : Prompts) (gw : List Msg → String) (inputs : Nat → String)
    (seq : List ConversationStep) :
    Nat → Nat → List Turn → Option ConversationStep → List Turn × Option ConversationStep
  | 0, _, conv, cur => (conv, cur)
  | _ + 1, _, conv, none => (conv, none)
  | fuel + 1, k, conv, some cur =>
      let st := chatIter p gw (inputs k) seq conv cur
      chat_loop p gw inputs seq fuel (k + 1) st.1 st.2

/-- `main_multi`'s step resolution (`ai_talker_functions_multi_v3.py` line
260): the comprehension `[available_steps[step] for step in
conversation_sequence if step in available_steps]` keeps only the known
identifiers and silently drops the rest. -/
def mainSteps (names : List String) : List ConversationStep :=
  names.filterMap available_steps

/-- `handle_conversation`'s step resolution (`api_multi_v3.py` line 33):
`[available_steps[step] for step in request.steps]` with no membership
guard, so the first unknown identifier raises `KeyError` (modelled as
`Except.error` carrying the offending name) before `run_conversation` is
ever entered. -/
def apiResolve : List String → Except String (List ConversationStep)
  | [] => Except.ok []
  | n :: rest =>
      match available_steps n with
      | some s => (apiResolve rest).map (fun l => s :: l)
      | none => Except.error n

/-- Observable outcome of the DynamoDB `table.scan` performed inside
`get_prompt_from_dynamodb` (`ai_talker_functions_multi_v3.py` lines 42-59):
either a response whose filtered `Items` list is available (each item an
attribute map, here an association list), or a raised botocore
`ClientError` carrying its message. -/
inductive ScanOutcome where
  | ok (items : List (List (String × String)))
  | clientError (msg : String)
deriving DecidableEq, Repr

/-- `get_prompt_from_dynamodb` (lines 42-59): on a successful scan the field
is read from the first item with dict `.get` (absent key gives `None`) and
an empty `Items` list gives `None`; a `ClientError` is caught, printed, and
`None` is returned — the same value as a missing record. -/
def get_prompt_from_dynamodb (outcome : ScanOutcome) (field_name : String) :
    Option String :=
  match outcome with
  | .ok items =>
      match items with
      | [] => none
      | item :: _ => List.lookup field_name item
  | .clientError _ => none

/-- The registry object for GREETING. -/
def greetingStep : ConversationStep := ⟨"GREETING"⟩

/-- The registry object for NEEDS_ASSESSMENT. -/
def needsStep : ConversationStep := ⟨"NEEDS_ASSESSMENT"⟩

/-- The registry object for CLOSING. -/
def closingStep : ConversationStep := ⟨"CLOSING"⟩

/-- A prompt record in which every DynamoDB fetch came back `None`. -/
def noPrompts : Prompts :=
  ⟨none, none, none, none, none, none, none, none, none, none, none⟩

/-- Dropping whitespace from the front of a list that ends in a
non-whitespace character keeps that final character. -/
lemma dropWhile_ws_append_singleton (l : List Char) (c : Char)
    (hc : c.isWhitespace = false) :
    ∃ r, (l ++ [c]).dropWhile Char.isWhitespace = r ++ [c] := by
  induction l with
  | nil => exact ⟨[], by simp [List.dropWhile_cons, hc]⟩
  | cons a t ih =>
      by_cases ha : a.isWhitespace
      · simpa [List.dropWhile_cons, ha] using ih
      · exact ⟨a :: t, by simp [List.dropWhile_cons, ha]⟩

/-- Stripping a character list whose head is not whitespace keeps the head. -/
lemma stripChars_cons (c : Char) (t : List Char) (hc : c.isWhitespace = false) :
    ∃ r, stripChars (c :: t) = c :: r := by
  unfold stripChars
  rw [List.dropWhile_cons]
  simp only [hc, Bool.false_eq_true, if_false, List.reverse_cons]
  obtain ⟨r, hr⟩ := dropWhile_ws_append_singleton t.reverse c hc
  rw [hr, List.reverse_append]
  exact ⟨r.reverse, by simp⟩

/-- A string whose first character `c` is not whitespace strips and
upper-cases to a string headed by `c.toUpper`. -/
lemma pyUpper_pyStrip_head (s : String) (c : Char) (hc : c.isWhitespace = false)
    (h : s.data.head? = some c) :
    ∃ r, (pyUpper (pyStrip s)).data = c.toUpper :: r := by
  cases hd : s.data with
  | nil => rw [hd] at h; cases h
  | cons x t =>
      rw [hd] at h
      simp only [List.head?_cons, Option.some.injEq] at h
      subst h
      obtain ⟨r, hr⟩ := stripChars_cons x t hc
      exact ⟨r.map Char.toUpper, by simp [pyUpper, pyStrip, hd, hr]⟩

/-- Appending to a string with a known head character keeps that head. -/
lemma head_data_append (a b : String) (c : Char) (h : a.data.head? = some c) :
    (a ++ b).data.head? = some c := by
  rw [String.data_append]
  cases ha : a.data with
  | nil => rw [ha] at h; cases h
  | cons x t =>
      rw [ha] at h
      simp only [List.head?_cons, Option.some.injEq] at h
      subst h
      simp

/-- A reply headed by a non-whitespace character can not strip-and-upper to
a target string whose head differs. -/
lemma strip_upper_ne (s target : String) (c : Char) (hc : c.isWhitespace = false)
    (h : s.data.head? = some c)
    (ht : target.data.head? ≠ some c.toUpper) :
    pyUpper (pyStrip s) ≠ target := by
  obtain ⟨r, hr⟩ := pyUpper_pyStrip_head s c hc h
  intro he
  apply ht
  rw [← he, hr]
  rfl

/-- Every failure string produced by `call_gpt_api` starts with the
character A of the `AI: ` prefix. -/
lemma call_gpt_api_failure_head (f : GatewayOutcome) (hf : gatewayFails f = true) :
    (call_gpt_api true f).data.head? = some 'A' := by
  cases f with
  | success c => simp [gatewayFails] at hf
  | httpError st b =>
      show ((("AI: I apologize, but I encountered an error. Status code: " ++
          toString st) ++ ". Error: ") ++ b).data.head? = some 'A'
      exact head_data_append _ _ _
        (head_data_append _ _ _ (head_data_append _ _ _ (by decide)))
  | exc m =>
      show (("AI: I apologize, but I encountered an error: " ++ m)).data.head? = some 'A'
      exact head_data_append _ _ _ (by decide)

/-- A halted chat loop returns its transcript unchanged at any fuel. -/
lemma chat_loop_none (p : Prompts) (gw : List Msg → String) (inputs : Nat → String)
    (seq : List ConversationStep) (fuel k : Nat) (conv : List Turn) :
    chat_loop p gw inputs seq fuel k conv none = (conv, none) := by
  cases fuel <;> rfl

/-- A halted run loop returns its transcript unchanged at any fuel. -/
lemma run_loop_none (p : Prompts) (gw : List Msg → String) (inputs : Nat → String)
    (seq : List ConversationStep) (fuel k : Nat) (conv : List Turn) :
    run_loop p gw inputs seq fuel k conv none = (conv, none) := by
  cases fuel <;> rfl

/-- The window is idempotent: taking the last five of the last five changes
nothing. -/
lemma last5_idem (conv : List Turn) : last5 (last5 conv) = last5 conv := by
  unfold last5
  rw [List.length_drop]
  rw [show conv.length - (conv.length - 5) - 5 = 0 from by omega, List.drop_zero]

/-- C1: for every supervisor reply, with the current step placed at its
first occurrence in the sequence, the stripped and upper-cased reply STAY
keeps the current step, COMPLETE completes (`none`), and any other reply
advances to the step immediately following the current step — completing
instead when the current step is the last element. -/
theorem supervisor_reply_trichotomy (reply : String) (cur : ConversationStep)
    (pre post : List ConversationStep) (hpre : cur ∉ pre) :
    (pyUpper (pyStrip reply) = "STAY" →
      superDecide reply cur (pre ++ cur :: post) = some cur) ∧
    (pyUpper (pyStrip reply) = "COMPLETE" →
      superDecide reply cur (pre ++ cur :: post) = none) ∧
    (pyUpper (pyStrip reply) ≠ "STAY" → pyUpper (pyStrip reply) ≠ "COMPLETE" →
      superDecide reply cur (pre ++ cur :: post) = post.head?) := by
  refine ⟨fun h => ?_, fun h => ?_, fun h1 h2 => ?_⟩
  · simp [superDecide, h]
  · simp [superDecide, h]
  · simp only [superDecide]
    rw [if_neg h1, if_neg h2]
    rw [List.indexOf_append_of_not_mem hpre, List.indexOf_cons_self]
    rw [List.getElem?_append_right (show pre.length ≤ pre.length + 0 + 1 by omega)]
    rw [show pre.length + 0 + 1 - pre.length = 1 from by omega, List.getElem?_cons_succ]
    rw [List.head?_eq_getElem?]

/-- C1 witness: at the sequence GREETING, CLOSING a reply naming a step
advances from GREETING to CLOSING. -/
theorem supervisor_reply_trichotomy_witness :
    superDecide "NEEDS_ASSESSMENT" greetingStep [greetingStep, closingStep] =
      some closingStep := by
  have h := supervisor_reply_trichotomy "NEEDS_ASSESSMENT" greetingStep
    [] [closingStep] (by decide)
  exact (h.2.2 (by decide) (by decide)).trans (by decide)

/-- C2 counterexample: in the chat-interface loop an empty user input is not
an escape hatch.  With input `""` and a supervisor reply STAY, one
iteration leaves the dialogue still running on GREETING, and with two units
of fuel the transcript has grown to four turns — against the claimed
immediate halt with a two-turn transcript. -/
theorem chat_empty_input_cex :
    (chat_loop noPrompts (fun _ => "STAY") (fun _ => "") [greetingStep]
        1 0 [] (some greetingStep)).2 = some greetingStep ∧
    (chat_loop noPrompts (fun _ => "STAY") (fun _ => "") [greetingStep]
        2 0 [] (some greetingStep)).1.length = 4 := by
  constructor
  · decide
  · decide

/-- C2 amended: a first user input whose lower-casing is exit, quit or bye
halts the chat-interface loop in exactly one iteration, without consulting
the supervisor, and the returned transcript is exactly the assistant turn
followed by that user turn; an empty input enjoys no such escape. -/
theorem chat_sentinel_exit_halts (p : Prompts) (gw : List Msg → String)
    (inputs : Nat → String) (s : ConversationStep) (rest : List ConversationStep)
    (fuel : Nat) (hx : pyLower (inputs 0) ∈ (["exit", "quit", "bye"] : List String))
    (hf : 1 ≤ fuel) :
    chat_loop p gw inputs (s :: rest) fuel 0 [] (some s) =
      ([⟨"AI", gw (buildMessages p s [])⟩, ⟨"User", inputs 0⟩], none) := by
  cases fuel with
  | zero => omega
  | succ f =>
      have hstep : chatIter p gw (inputs 0) (s :: rest) [] s =
          ([⟨"AI", gw (buildMessages p s [])⟩, ⟨"User", inputs 0⟩], none) := by
        simp [chatIter, hx]
      simp [chat_loop, hstep, chat_loop_none]

/-- C2 witness: with the concrete input exit the chat loop halts after one
iteration with the two-turn transcript. -/
theorem chat_sentinel_exit_halts_witness :
    chat_loop noPrompts (fun _ => "hello there") (fun _ => "exit") [greetingStep]
        1 0 [] (some greetingStep) =
      ([⟨"AI", "hello there"⟩, ⟨"User", "exit"⟩], none) :=
  chat_sentinel_exit_halts noPrompts (fun _ => "hello there") (fun _ => "exit")
    greetingStep [] 1 (by decide) (by decide)

/-- C3 counterexample: `main_multi` does not fail fast on an unknown step
identifier — resolving GREETING, NOT_A_STEP silently drops the unknown name
and leaves a nonempty sequence, so the dialogue is started. -/
theorem unknown_step_not_fail_fast_cex :
    mainSteps ["GREETING", "NOT_A_STEP"] = [greetingStep] ∧
    mainSteps ["GREETING", "NOT_A_STEP"] ≠ [] := by
  constructor
  · decide
  · decide

/-- C3 amended: the API endpoint's resolution fails (with the lookup error
of the first unknown identifier, before any model call) exactly when some
supplied identifier is unknown, while `main_multi`'s resolution never
fails: it silently keeps precisely the known identifiers, in order. -/
theorem unknown_step_resolution (names : List String) :
    ((∃ e, apiResolve names = Except.error e) ↔ ∃ n ∈ names, available_steps n = none) ∧
    mainSteps names =
      (names.filter (fun n => (available_steps n).isSome)).map
        (fun n => (⟨n⟩ : ConversationStep)) := by
  constructor
  · induction names with
    | nil => simp [apiResolve]
    | cons a t ih =>
        cases h : available_steps a with
        | none =>
            simp only [apiResolve, h]
            constructor
            · intro _
              exact ⟨a, by simp, h⟩
            · intro _
              exact ⟨a, rfl⟩
        | some s =>
            simp only [apiResolve, h]
            cases ht : apiResolve t with
            | ok l =>
                simp only [ht, Except.map]
                constructor
                · rintro ⟨e, he⟩
                  cases he
                · rintro ⟨n, hn, hnone⟩
                  rcases List.mem_cons.mp hn with h2 | h2
                  · subst h2
                    rw [h] at hnone
                    cases hnone
                  · obtain ⟨e, he⟩ := ih.mpr ⟨n, h2, hnone⟩
                    rw [ht] at he
                    cases he
            | error e =>
                simp only [ht, Except.map]
                constructor
                · intro _
                  obtain ⟨n, hn, hnone⟩ := ih.mp ⟨e, ht⟩
                  exact ⟨n, List.mem_cons_of_mem a hn, hnone⟩
                · intro _
                  exact ⟨e, rfl⟩
  · induction names with
    | nil => rfl
    | cons a t ih =>
        cases h : available_steps a with
        | none =>
            have h1 : mainSteps (a :: t) = mainSteps t := by
              simp [mainSteps, List.filterMap_cons, h]
            have h2 : ((available_steps a).isSome : Bool) = false := by rw [h]; rfl
            rw [h1, ih, List.filter_cons, h2]
            simp
        | some s =>
            have hs : s = ⟨a⟩ := by
              by_cases hmem : a ∈ step_names
              · simp [available_steps, hmem] at h
                exact h.symm
              · simp [available_steps, hmem] at h
            have h1 : mainSteps (a :: t) = s :: mainSteps t := by
              simp [mainSteps, List.filterMap_cons, h]
            have h2 : ((available_steps a).isSome : Bool) = true := by rw [h]; rfl
            rw [h1, ih, List.filter_cons, h2, hs]
            simp

set_option maxRecDepth 40000 in
/-- C4 counterexample: with the GREETING fragment missing (fetched as None)
the rendered GREETING template carries the literal text None at the
placeholder, and differs from the empty-substitution rendering the claim
demands. -/
theorem none_field_renders_literal_cex :
    step_prompts noPrompts "GREETING" =
      "You are a friendly AI assistant. Greet the customer warmly and engage in a brief conversation to make them feel welcome. Then, ask the customer for the following details, one by one, in a natural tone: None. Make sure to wait for the user's response to each question before moving to the next. Do not move to the next step until all of these details are collected. Keep the conversation engaging and friendly throughout." ∧
    "You are a friendly AI assistant. Greet the customer warmly and engage in a brief conversation to make them feel welcome. Then, ask the customer for the following details, one by one, in a natural tone: None. Make sure to wait for the user's response to each question before moving to the next. Do not move to the next step until all of these details are collected. Keep the conversation engaging and friendly throughout." ≠
    "You are a friendly AI assistant. Greet the customer warmly and engage in a brief conversation to make them feel welcome. Then, ask the customer for the following details, one by one, in a natural tone: . Make sure to wait for the user's response to each question before moving to the next. Do not move to the next step until all of these details are collected. Keep the conversation engaging and friendly throughout." := by
  constructor
  · decide
  · decide

/-- C4 amended: the GREETING template renders its fetched fragment through
Python f-string conversion — a missing (None) fragment is interpolated as
the literal text None, a present fragment as itself — and rendering is a
total function: it never raises and never stops the dialogue. -/
theorem none_field_renders_str (p : Prompts) :
    step_prompts p "GREETING" =
      "You are a friendly AI assistant. Greet the customer warmly and engage in a brief conversation to make them feel welcome. Then, ask the customer for the following details, one by one, in a natural tone: " ++ pyStr p.greeting ++ ". Make sure to wait for the user's response to each question before moving to the next. Do not move to the next step until all of these details are collected. Keep the conversation engaging and friendly throughout." ∧
    pyStr none = "None" ∧ (∀ s, pyStr (some s) = s) :=
  ⟨rfl, rfl, fun _ => rfl⟩

/-- C5 counterexample: the error turn produced for a concrete gateway
exception is prefixed with AI-colon, so it is not of the claimed form
whose text starts at the word I. -/
theorem gateway_error_prefix_cex :
    call_gpt_api true (GatewayOutcome.exc "boom") =
      "AI: I apologize, but I encountered an error: boom" ∧
    "AI: I apologize, but I encountered an error: boom" ≠
      "I apologize, but I encountered an error: boom" := by
  constructor
  · rfl
  · decide

/-- C5 amended: every gateway failure is converted to a returned string —
an exception yields the AI-prefixed apology with the detail after a colon,
a non-success response yields the AI-prefixed apology carrying status code
and body — and the run_conversation iteration appends that string as the
assistant turn and then still appends the next user input instead of
aborting. -/
theorem gateway_error_turn_forms :
    (∀ m, call_gpt_api true (GatewayOutcome.exc m) =
      "AI: I apologize, but I encountered an error: " ++ m) ∧
    (∀ st b, call_gpt_api true (GatewayOutcome.httpError st b) =
      "AI: I apologize, but I encountered an error. Status code: " ++
        toString st ++ ". Error: " ++ b) ∧
    (∀ p gw input seq conv cur,
      (runIter p gw input seq conv cur).1 =
        conv ++ [⟨"AI", gw (buildMessages p cur conv)⟩, ⟨"User", input⟩]) :=
  ⟨fun _ => rfl, fun _ _ => rfl, fun _ _ _ _ _ _ => rfl⟩

/-- C6 counterexample: a System turn inside the history is not passed
through unchanged — it is mapped to the model-facing role user. -/
theorem system_turn_not_passed_cex :
    buildMessages noPrompts greetingStep [⟨"System", "retrieval context"⟩] =
      [⟨"system", step_prompts noPrompts "GREETING"⟩, ⟨"user", "retrieval context"⟩] ∧
    ("user" : String) ≠ "system" := by
  constructor
  · rfl
  · decide

/-- C6 amended: the outbound list is exactly one system message holding the
rendered template first, followed by one message per context-window turn in
original order, where a turn maps to role assistant exactly when its role
is AI and to role user otherwise (System turns included); content is
carried over unchanged. -/
theorem rendered_messages_shape (p : Prompts) (cur : ConversationStep)
    (conv : List Turn) :
    (buildMessages p cur conv).length = (last5 conv).length + 1 ∧
    (buildMessages p cur conv)[0]? = some ⟨"system", step_prompts p cur.function⟩ ∧
    ∀ i, (buildMessages p cur conv)[i + 1]? =
      ((last5 conv)[i]?).map (fun t =>
        ⟨if t.role = "AI" then "assistant" else "user", t.content⟩) := by
  refine ⟨by simp [buildMessages], by simp [buildMessages], fun i => ?_⟩
  simp only [buildMessages, List.getElem?_cons_succ, List.getElem?_map]
  cases (last5 conv)[i]? with
  | none => rfl
  | some t => rfl

/-- C7: the window exposed to prompt rendering and to the supervisor is
conversation[-5:]: at most the five most recent turns, a suffix of the
transcript in original append order, shorter than five exactly when the
transcript is, and both the outbound message list and the supervisor
message depend on the transcript only through that window. -/
theorem context_window_last5 (conv : List Turn) :
    (last5 conv).length = min conv.length 5 ∧
    conv.take (conv.length - 5) ++ last5 conv = conv ∧
    ((last5 conv).length < 5 ↔ conv.length < 5) ∧
    (∀ p cur, buildMessages p cur (last5 conv) = buildMessages p cur conv) ∧
    (∀ p cur, supervisorMessages p (last5 conv) cur = supervisorMessages p conv cur) := by
  have hlen : (last5 conv).length = min conv.length 5 := by
    simp only [last5, List.length_drop]
    omega
  refine ⟨hlen, List.take_append_drop _ _, by rw [hlen]; omega,
    fun p cur => ?_, fun p cur => ?_⟩
  · simp [buildMessages, last5_idem]
  · simp [supervisorMessages, supervisorPrompt, last5_idem]

/-- C8 counterexample: a DynamoDB transport failure is caught and returns
None — the very same value as an empty scan result — so the caller cannot
distinguish a transport failure from a missing record, and no distinct
error is signalled. -/
theorem field_source_claim_cex :
    get_prompt_from_dynamodb (ScanOutcome.clientError "connection reset") "GREETING" =
      none ∧
    get_prompt_from_dynamodb (ScanOutcome.ok []) "GREETING" = none :=
  ⟨rfl, rfl⟩

/-- C8 amended: the field lookup returns None both when no matching record
exists and on transport failure (the ClientError is caught and logged, not
signalled), making the two outcomes indistinguishable to the caller; when a
record exists the requested attribute of the first item is returned (None
if the attribute is absent). -/
theorem field_source_indistinguishable (m f : String) :
    get_prompt_from_dynamodb (ScanOutcome.clientError m) f =
      get_prompt_from_dynamodb (ScanOutcome.ok []) f ∧
    get_prompt_from_dynamodb (ScanOutcome.clientError m) f = none ∧
    ∀ it rest, get_prompt_from_dynamodb (ScanOutcome.ok (it :: rest)) f =
      List.lookup f it :=
  ⟨rfl, rfl, fun _ _ => rfl⟩

/-- C9: when the supervisor's own gateway call fails, the returned error
string — which starts with the AI-colon prefix and hence strips to neither
STAY nor COMPLETE — is read as an advance signal: the decision is the
sequence entry after the current step's (first) position, or completion
when the current step is last. -/
theorem supervisor_gateway_error_advances (p : Prompts) (conv : List Turn)
    (cur : ConversationStep) (seq : List ConversationStep) (f : GatewayOutcome)
    (hf : gatewayFails f = true) (_hm : cur ∈ seq) :
    supervisor p (fun _ => call_gpt_api true f) conv cur seq =
      seq[seq.indexOf cur + 1]? := by
  have hA := call_gpt_api_failure_head f hf
  have h1 : pyUpper (pyStrip (call_gpt_api true f)) ≠ "STAY" :=
    strip_upper_ne _ _ 'A' (by decide) hA (by decide)
  have h2 : pyUpper (pyStrip (call_gpt_api true f)) ≠ "COMPLETE" :=
    strip_upper_ne _ _ 'A' (by decide) hA (by decide)
  simp [supervisor, superDecide, h1, h2]

/-- C9 witness: a concrete exception during the supervisor call advances
from GREETING to CLOSING in the sequence GREETING, CLOSING. -/
theorem supervisor_gateway_error_advances_witness :
    supervisor noPrompts (fun _ => call_gpt_api true (GatewayOutcome.exc "boom")) []
      greetingStep [greetingStep, closingStep] = some closingStep := by
  have h := supervisor_gateway_error_advances noPrompts [] greetingStep
    [greetingStep, closingStep] (GatewayOutcome.exc "boom") rfl (by decide)
  exact h.trans (by decide)

/-- C10: with a duplicated step the advance target is computed from the
first occurrence of the current step: for any reply that is neither STAY
nor COMPLETE, the decision over a sequence holding the step both right
after `pre` and again later is the entry immediately following the first
occurrence. -/
theorem duplicate_step_advances_from_first (reply : String) (s : ConversationStep)
    (pre mid post : List ConversationStep) (hpre : s ∉ pre)
    (h1 : pyUpper (pyStrip reply) ≠ "STAY")
    (h2 : pyUpper (pyStrip reply) ≠ "COMPLETE") :
    superDecide reply s (pre ++ s :: (mid ++ s :: post)) = (mid ++ s :: post).head? := by
  simp only [superDecide]
  rw [if_neg h1, if_neg h2]
  rw [List.indexOf_append_of_not_mem hpre, List.indexOf_cons_self]
  rw [List.getElem?_append_right (show pre.length ≤ pre.length + 0 + 1 by omega)]
  rw [show pre.length + 0 + 1 - pre.length = 1 from by omega, List.getElem?_cons_succ]
  rw [List.head?_eq_getElem?]

/-- C10 witness: in the sequence GREETING, NEEDS_ASSESSMENT, GREETING an
advance while GREETING is current goes to NEEDS_ASSESSMENT, the step after
the first GREETING occurrence. -/
theorem duplicate_step_advances_from_first_witness :
    superDecide "ACCOUNT_MANAGEMENT" greetingStep
      [greetingStep, needsStep, greetingStep] = some needsStep := by
  have h := duplicate_step_advances_from_first "ACCOUNT_MANAGEMENT" greetingStep
    [] [needsStep] [] (by decide) (by decide) (by decide)
  exact h.trans (by decide)

end FlowState
